import Mathlib

/-!
Shallow embedding of the tuya-voltage-monitor repository
(src/collector.py, src/database.py, src/web.py) and verification of
the specification claims against it.

Conventions: Python dicts with fixed keys become structures; Python
`None` becomes `Option.none`; Python numeric raw values are `Int`, and
values produced by true division (`/ 10.0` etc.) are modelled as `Rat`;
exceptions become explicit outcome constructors; the cloud API and the
database driver are modelled as explicit parameters (a status function
for `tinytuya.Cloud.getstatus`, a failure flag for psycopg2 errors).
-/

namespace VoltMonitor

/-! ## Collector (src/collector.py)

A raw status field is one element of `status['result']`: a dict whose
`code` / `value` keys may be missing (`item.get('code', '')`,
`item.get('value')`). -/

structure RawField where
  code : Option String
  value : Option Int
deriving DecidableEq, Repr

/-- Reading dict built by `collect_device` (src/collector.py lines 60-65):
keys `device_id`, `voltage`, `current`, `power`, the last three initially
`None`. -/
structure ReadingDict where
  device_id : String
  voltage : Option Rat
  current : Option Rat
  power : Option Rat
deriving DecidableEq, Repr

/-- Python expression `value / d if value else None` (src/collector.py
lines 74, 77, 80): `None` and `0` are falsy, any other int is divided. -/
def valueToScaled (v : Option Int) (d : Rat) : Option Rat :=
  match v with
  | none => none
  | some n => if n = 0 then none else some ((n : Rat) / d)

/-- Loop body of the `for item in result` scan (src/collector.py lines
68-80). `code = item.get('code', '')`, `value = item.get('value')`; each
matching branch overwrites the corresponding key of `reading`. -/
def applyField (r : ReadingDict) (f : RawField) : ReadingDict :=
  let code := f.code.getD ""
  if code = "voltage" ∨ code = "cur_voltage" then
    { r with voltage := valueToScaled f.value 10 }
  else if code = "current" ∨ code = "cur_current" then
    { r with current := valueToScaled f.value 1000 }
  else if code = "power" ∨ code = "cur_power" then
    { r with power := valueToScaled f.value 10 }
  else
    r

/-- Parse of one device's `status['result']` field list into an optional
reading (src/collector.py lines 60-94): scan all fields, then return
`None` when `reading['voltage'] is None`, else the reading. -/
def normalize (device_id : String) (fields : List RawField) : Option ReadingDict :=
  let r := fields.foldl applyField ⟨device_id, none, none, none⟩
  match r.voltage with
  | none => none
  | some _ => some r

/-- Outcome of `self.cloud.getstatus(device_id)`: the call may raise, may
return a falsy object or a dict without a `result` key (both handled by
`if not status or 'result' not in status`), or may return a field list. -/
inductive GetStatusOutcome where
  | raised (msg : String)
  | noResult
  | result (fields : List RawField)

/-- Embedding of `TuyaCollector.collect_device` (src/collector.py lines
42-98): any raised exception and any missing result yield `None`,
otherwise the status fields are normalized. -/
def collect_device (getstatus : String → GetStatusOutcome)
    (device_id : String) : Option ReadingDict :=
  match getstatus device_id with
  | .raised _ => none
  | .noResult => none
  | .result fields => normalize device_id fields

/-- Embedding of `TuyaCollector.collect_all_devices` (src/collector.py
lines 31-40): start from `[]`, append each non-`None` per-device reading. -/
def collect_all_devices (getstatus : String → GetStatusOutcome)
    (device_ids : List String) : List ReadingDict :=
  device_ids.foldl
    (fun readings d =>
      match collect_device getstatus d with
      | some r => readings ++ [r]
      | none => readings)
    []

/-- Synonym test used by the voltage branch of the scan. -/
def isVoltSyn (f : RawField) : Prop :=
  f.code.getD "" = "voltage" ∨ f.code.getD "" = "cur_voltage"

instance (f : RawField) : Decidable (isVoltSyn f) := by
  unfold isVoltSyn
  infer_instance

/-! ## Database (src/database.py)

A persisted row of the `voltage_readings` table (columns besides the
serial `id`). Timestamps are naive civil datetimes; we model them as a
record of calendar fields. -/

structure DT where
  year : Int
  month : Int
  day : Int
  hour : Int
  minute : Int
  second : Int
deriving DecidableEq, Repr

/-- Lexicographic key of a naive datetime: comparison of `DT` values
mirrors comparison of SQL `TIMESTAMP` values field by field. -/
def dtKey (t : DT) : Int ×ₗ Int ×ₗ Int ×ₗ Int ×ₗ Int ×ₗ Int :=
  toLex (t.year, toLex (t.month, toLex (t.day, toLex (t.hour, toLex (t.minute, t.second)))))

structure VoltageRow where
  device_id : String
  timestamp : DT
  voltage : Rat
  created_at : DT
deriving DecidableEq, Repr

/-- Reading as handed to `insert_batch`: by the time a collector reading
reaches the store it has a resolved (non-`None`) voltage, and only its
`device_id` and `voltage` keys are read (src/database.py lines 102-105). -/
structure BatchReading where
  device_id : String
  voltage : Rat
deriving DecidableEq, Repr

/-- Row built for one reading: `(r['device_id'], r['voltage'], brt_time,
brt_time)` inserted into `(device_id, voltage, timestamp, created_at)`. -/
def rowOfReading (now : DT) (r : BatchReading) : VoltageRow :=
  ⟨r.device_id, now, r.voltage, now⟩

/-- Embedding of `VoltageDatabase.insert_batch` (src/database.py lines
88-116). State is the list of persisted rows. `now` is the value of
`datetime.now(BRT).replace(tzinfo=None)`, read once per call; `dbFails`
says whether the psycopg2 insert/commit raises, in which case the
transaction is rolled back. Return value: `none` for the bare `return`
on an empty list, `some true` / `some false` for the success / failure
paths. -/
def insert_batch (db : List VoltageRow) (readings : List BatchReading)
    (now : DT) (dbFails : Bool) : List VoltageRow × Option Bool :=
  if readings.isEmpty then
    (db, none)
  else if dbFails then
    (db, some false)
  else
    (db ++ readings.map (rowOfReading now), some true)

/-! ## Web query path (src/web.py, `get_data`) -/

/-- SQL `DATE_TRUNC(unit, timestamp)` for the three units used by
`get_data`: truncation zeroes the subordinate fields (day resets to 1). -/
def truncTs (scale : String) (t : DT) : DT :=
  if scale = "hour" then
    { t with minute := 0, second := 0 }
  else if scale = "day" then
    { t with hour := 0, minute := 0, second := 0 }
  else
    { t with day := 1, hour := 0, minute := 0, second := 0 }

/-- Conjunctive WHERE clause of the `get_data` query (src/web.py lines
61, 103-117): `timestamp >= time_window`, optional inclusive voltage
bounds (applied when the parsed parameter `is not None`), and a device
filter applied only when `device_id` is truthy (absent and `""` are
falsy in Python). -/
def rowMatches (tw : DT) (mnV mxV : Option Rat) (dvI : Option String)
    (r : VoltageRow) : Bool :=
  decide (dtKey tw ≤ dtKey r.timestamp)
    && (match mnV with | none => true | some m => decide (m ≤ r.voltage))
    && (match mxV with | none => true | some m => decide (r.voltage ≤ m))
    && (match dvI with
        | none => true
        | some d => if d = "" then true else decide (r.device_id = d))

/-- Grouping keys `(device_id, time_bucket)` of `GROUP BY device_id,
time_bucket`, in order of first appearance among the filtered rows (the
SQL leaves the group order unspecified; the final ORDER BY is applied
separately below). -/
def aggKeys (scale : String) (rows : List VoltageRow) : List (String × DT) :=
  rows.foldl
    (fun ks r =>
      let k := (r.device_id, truncTs scale r.timestamp)
      if k ∈ ks then ks else ks ++ [k])
    []

/-- Voltages of the rows belonging to one group. -/
def groupVoltages (scale : String) (rows : List VoltageRow) (k : String × DT) : List Rat :=
  (rows.filter (fun r =>
    decide (r.device_id = k.1) && decide (truncTs scale r.timestamp = k.2))).map
    VoltageRow.voltage

/-- Result row of the aggregated `get_data` query: `device_id`,
`time_bucket`, `avg_voltage`, `min_voltage`, `max_voltage`,
`reading_count`. -/
structure Bucket where
  device_id : String
  time_bucket : DT
  avg_voltage : Rat
  min_voltage : Rat
  max_voltage : Rat
  reading_count : Nat
deriving DecidableEq, Repr

/-- SQL aggregates `AVG`, `MIN`, `MAX`, `COUNT(*)` over one non-empty
group. -/
def bucketFor (k : String × DT) (vs : List Rat) : Bucket :=
  { device_id := k.1
    time_bucket := k.2
    avg_voltage := vs.sum / (vs.length : Rat)
    min_voltage := vs.foldl min (vs.headD 0)
    max_voltage := vs.foldl max (vs.headD 0)
    reading_count := vs.length }

/-- Raw branch of the query (src/web.py lines 89-101): each row is its
own bucket with `voltage` repeated as avg/min/max and `1 as
reading_count`. -/
def rawBucketOf (r : VoltageRow) : Bucket :=
  ⟨r.device_id, r.timestamp, r.voltage, r.voltage, r.voltage, 1⟩

/-- Ordering realised by `ORDER BY time_bucket ASC`: by bucket timestamp
only. -/
def bucketLe (a b : Bucket) : Prop :=
  dtKey a.time_bucket ≤ dtKey b.time_bucket

instance : DecidableRel bucketLe := by
  unfold bucketLe
  infer_instance

instance : IsTotal Bucket bucketLe :=
  ⟨fun a b => le_total (dtKey a.time_bucket) (dtKey b.time_bucket)⟩

instance : IsTrans Bucket bucketLe :=
  ⟨fun _ _ _ hab hbc => le_trans hab hbc⟩

/-- Aggregation branch shared by the `hour`/`day`/`month` arms of
`get_data`: group the filtered rows by `(device_id, DATE_TRUNC(scale,
timestamp))` and compute the aggregates per group. -/
def aggBuckets (scale : String) (rows : List VoltageRow) : List Bucket :=
  (aggKeys scale rows).map (fun k => bucketFor k (groupVoltages scale rows k))

/-- Embedding of the query built and executed by `get_data` (src/web.py
lines 49-128): WHERE filters, branch on `scale` (`hour`, `day`, `month`
aggregate with GROUP BY; anything else falls into the raw `else`
branch), then `ORDER BY time_bucket ASC`. The sort is a stable
insertion sort, one refinement of the order the SQL leaves partially
unspecified. -/
def getData (db : List VoltageRow) (scale : String) (tw : DT)
    (mnV mxV : Option Rat) (dvI : Option String) : List Bucket :=
  let rows := db.filter (rowMatches tw mnV mxV dvI)
  let bs :=
    if scale = "hour" then aggBuckets "hour" rows
    else if scale = "day" then aggBuckets "day" rows
    else if scale = "month" then aggBuckets "month" rows
    else rows.map rawBucketOf
  List.insertionSort bucketLe bs

/-! ## Web handler plumbing around the query (src/web.py lines 27-161) -/

/-- Parameter extraction `request.args.get('scale', 'hour')`. -/
def scaleOf (p : Option String) : String :=
  p.getD "hour"

/-- Digit run evaluation for the model of Python `int`. -/
def digitsVal (cs : List Char) : Option Nat :=
  cs.foldl
    (fun acc c =>
      match acc with
      | none => none
      | some n => if c.isDigit then some (n * 10 + (c.toNat - 48)) else none)
    (some 0)

/-- Surrounding-whitespace strip, as Python `int` applies to its string
argument. -/
def stripChars (cs : List Char) : List Char :=
  ((cs.dropWhile Char.isWhitespace).reverse.dropWhile Char.isWhitespace).reverse

/-- Model of Python `int(s)` for strings: surrounding whitespace is
stripped, an optional sign precedes a non-empty digit run; anything else
raises `ValueError`, modelled as `none`. -/
def parseIntPy (s : String) : Option Int :=
  let core : List Char → Option Int := fun ds =>
    if ds.isEmpty then none else (digitsVal ds).map (fun n => (n : Int))
  match stripChars s.toList with
  | [] => none
  | c :: rest =>
    if c = '-' then (core rest).map (fun n => -n)
    else if c = '+' then core rest
    else core (c :: rest)

/-- Value of `int(request.args.get('hours', 24))`: the default `24` is
already an int, a present parameter is parsed and may raise. -/
def hoursOf (hoursP : Option String) : Option Int :=
  match hoursP with
  | none => some 24
  | some s => parseIntPy s

/-- Civil date from a day count relative to 1970-01-01 (the standard
proleptic-Gregorian conversion, as performed by `datetime` arithmetic). -/
def civilFromDays (z0 : Int) : Int × Int × Int :=
  let z := z0 + 719468
  let era := Int.fdiv z 146097
  let doe := z - era * 146097
  let yoe := Int.fdiv (doe - Int.fdiv doe 1460 + Int.fdiv doe 36524 - Int.fdiv doe 146096) 365
  let y := yoe + era * 400
  let doy := doe - (365 * yoe + Int.fdiv yoe 4 - Int.fdiv yoe 100)
  let mp := Int.fdiv (5 * doy + 2) 153
  let d := doy - Int.fdiv (153 * mp + 2) 5 + 1
  let m := mp + (if mp < 10 then 3 else -9)
  (y + (if m ≤ 2 then 1 else 0), m, d)

/-- Day count relative to 1970-01-01 of a civil date. -/
def daysFromCivil (y0 m d : Int) : Int :=
  let y := y0 - (if m ≤ 2 then 1 else 0)
  let era := Int.fdiv y 400
  let yoe := y - era * 400
  let mp := Int.fmod (m + 9) 12
  let doy := Int.fdiv (153 * mp + 2) 5 + d - 1
  let doe := yoe * 365 + Int.fdiv yoe 4 - Int.fdiv yoe 100 + doy
  era * 146097 + doe - 719468

def dtToSeconds (t : DT) : Int :=
  daysFromCivil t.year t.month t.day * 86400
    + t.hour * 3600 + t.minute * 60 + t.second

def dtOfSeconds (s : Int) : DT :=
  let days := Int.fdiv s 86400
  let rem := Int.fmod s 86400
  let ymd := civilFromDays days
  ⟨ymd.1, ymd.2.1, ymd.2.2, Int.fdiv rem 3600, Int.fdiv (Int.fmod rem 3600) 60, Int.fmod rem 60⟩

/-- Computation of `datetime.now() - timedelta(hours=hours)` (src/web.py
line 47): exact clock arithmetic on the naive datetime. -/
def dtSubHours (t : DT) (h : Int) : DT :=
  dtOfSeconds (dtToSeconds t - h * 3600)

/-- Observable outcome of one `/api/data` request: the JSON success
payload, the structured `success: False` error response built in the
`except` branch, or an exception that escapes the handler (no structured
body is produced). -/
inductive Outcome where
  | ok (data : List Bucket) (scale : String) (hours : Int)
  | structuredError (msg : String)
  | unhandled
deriving DecidableEq, Repr

/-- Embedding of the `get_data` route handler (src/web.py lines 27-161),
in source order: `db = get_db()` (line 38, raises when the store is
unreachable — `storeUp = false`), parameter parsing (line 41, `int(...)`
raises on a malformed `hours`), window computation, then the `try` block
whose query execution may raise (`execError`), caught and turned into
the structured error response. -/
def get_data_handler (storeUp : Bool) (db : List VoltageRow)
    (execError : Option String) (now : DT) (scaleP hoursP : Option String)
    (mnV mxV : Option Rat) (dvI : Option String) : Outcome :=
  if storeUp = false then
    .unhandled
  else
    let scale := scaleOf scaleP
    match hoursOf hoursP with
    | none => .unhandled
    | some hours =>
      let tw := dtSubHours now hours
      match execError with
      | some msg => .structuredError msg
      | none => .ok (getData db scale tw mnV mxV dvI) scale hours

/-! ## Auxiliary definitions used to state claims -/

/-- Structural byte-wise comparison of char lists (ascending). -/
def charListLe : List Char → List Char → Bool
  | [], _ => true
  | _ :: _, [] => false
  | a :: as, b :: bs =>
    if a.toNat < b.toNat then true
    else if a.toNat = b.toNat then charListLe as bs
    else false

/-- Ascending order on device identifiers. -/
def strLe (a b : String) : Bool :=
  charListLe a.toList b.toList

/-- Ordering asserted by the spec for aggregation results: ascending by
`bucketStart`, ties broken by `deviceId`. -/
def claimOrder (x y : Bucket) : Prop :=
  dtKey x.time_bucket < dtKey y.time_bucket
    ∨ (x.time_bucket = y.time_bucket ∧ strLe x.device_id y.device_id = true)

instance : DecidableRel claimOrder := by
  unfold claimOrder
  infer_instance

/-- Store with two devices whose readings fall in the same clock hour,
the lexicographically larger device id inserted first. -/
def dbTwoDevicesOneHour : List VoltageRow :=
  [⟨"b", ⟨2024, 1, 1, 10, 5, 0⟩, 220, ⟨2024, 1, 1, 10, 5, 0⟩⟩,
   ⟨"a", ⟨2024, 1, 1, 10, 20, 0⟩, 230, ⟨2024, 1, 1, 10, 20, 0⟩⟩]

/-! ## Helper lemmas -/

lemma applyField_voltage_of_not_syn (r : ReadingDict) (f : RawField)
    (h : ¬ isVoltSyn f) : (applyField r f).voltage = r.voltage := by
  unfold applyField
  unfold isVoltSyn at h
  simp only [if_neg h]
  split <;> try rfl
  split <;> rfl

lemma foldl_voltage_of_not_syn (post : List RawField) (r : ReadingDict)
    (h : ∀ f ∈ post, ¬ isVoltSyn f) :
    (post.foldl applyField r).voltage = r.voltage := by
  induction post generalizing r with
  | nil => rfl
  | cons f fs ih =>
    simp only [List.foldl_cons]
    rw [ih _ (fun g hg => h g (List.mem_cons_of_mem f hg)),
      applyField_voltage_of_not_syn r f (h f (List.mem_cons_self f fs))]

lemma applyField_voltage_of_syn (r : ReadingDict) (f : RawField)
    (h : isVoltSyn f) : (applyField r f).voltage = valueToScaled f.value 10 := by
  unfold applyField
  unfold isVoltSyn at h
  simp only [if_pos h]

lemma normalize_voltage_of_last_syn (dev : String) (pre post : List RawField)
    (f : RawField) (hf : isVoltSyn f) (hpost : ∀ g ∈ post, ¬ isVoltSyn g) :
    ((pre ++ f :: post).foldl applyField ⟨dev, none, none, none⟩).voltage
      = valueToScaled f.value 10 := by
  rw [List.foldl_append, List.foldl_cons,
    foldl_voltage_of_not_syn post _ hpost, applyField_voltage_of_syn _ _ hf]

lemma normalize_some_of_last_nonzero (dev : String) (pre post : List RawField)
    (c : String) (v : Int) (hc : c = "voltage" ∨ c = "cur_voltage") (hv : v ≠ 0)
    (hpost : ∀ g ∈ post, ¬ isVoltSyn g) :
    (normalize dev (pre ++ ⟨some c, some v⟩ :: post)).map ReadingDict.voltage
      = some (some ((v : Rat) / 10)) := by
  have hsyn : isVoltSyn ⟨some c, some v⟩ := by
    unfold isVoltSyn
    simpa using hc
  have hvolt := normalize_voltage_of_last_syn dev pre post _ hsyn hpost
  have hval : valueToScaled (RawField.mk (some c) (some v)).value 10
      = some ((v : Rat) / 10) := by
    unfold valueToScaled
    simp [hv]
  unfold normalize
  simp only [hvolt, hval, Option.map_some']

lemma foldl_voltage_none_of_falsy (fields : List RawField) (r : ReadingDict)
    (hr : r.voltage = none)
    (h : ∀ f ∈ fields, isVoltSyn f → f.value = none ∨ f.value = some 0) :
    (fields.foldl applyField r).voltage = none := by
  induction fields generalizing r with
  | nil => exact hr
  | cons f fs ih =>
    simp only [List.foldl_cons]
    refine ih _ ?_ (fun g hg => h g (List.mem_cons_of_mem f hg))
    by_cases hs : isVoltSyn f
    · rw [applyField_voltage_of_syn r f hs]
      rcases h f (List.mem_cons_self f fs) hs with hv | hv <;> simp [valueToScaled, hv]
    · rw [applyField_voltage_of_not_syn r f hs]
      exact hr

lemma collect_foldl_eq (env : String → GetStatusOutcome) (ids : List String)
    (acc : List ReadingDict) :
    ids.foldl
        (fun readings d =>
          match collect_device env d with
          | some r => readings ++ [r]
          | none => readings)
        acc
      = acc ++ ids.filterMap (collect_device env) := by
  induction ids generalizing acc with
  | nil => simp
  | cons d ds ih =>
    cases hd : collect_device env d with
    | none => simp [List.foldl_cons, List.filterMap_cons, hd, ih]
    | some r => simp [List.foldl_cons, List.filterMap_cons, hd, ih]

/-! ## Claims -/

/-- Claim C1, counterexample: the raw field list
`[(voltage, 2200), (cur_voltage, 0)]` contains a `voltage` entry with
numeric value 2200, yet normalization produces no reading at all (the
later falsy synonym entry overwrites the converted voltage with `None`),
so it does not yield a reading with voltage `2200 / 10.0`. -/
theorem normalize_contains_voltage_entry_cx :
    normalize "d" [⟨some "voltage", some 2200⟩, ⟨some "cur_voltage", some 0⟩] = none := by
  decide

/-- Claim C1, amended: for every raw field list whose LAST
voltage-synonym entry (`voltage` or `cur_voltage`) carries a nonzero
numeric value `v`, normalization yields a reading whose voltage equals
`v / 10.0`. -/
theorem normalize_voltage_div_ten_of_last_nonzero (dev : String)
    (pre post : List RawField) (c : String) (v : Int)
    (hc : c = "voltage" ∨ c = "cur_voltage") (hv : v ≠ 0)
    (hpost : ∀ g ∈ post, ¬ isVoltSyn g) :
    (normalize dev (pre ++ ⟨some c, some v⟩ :: post)).map ReadingDict.voltage
      = some (some ((v : Rat) / 10)) :=
  normalize_some_of_last_nonzero dev pre post c v hc hv hpost

/-- Claim C1, witness: the spec scenario `(cur_voltage, 2205)` between
non-voltage fields yields voltage `220.5`. -/
theorem normalize_voltage_div_ten_of_last_nonzero_witness :
    (("cur_voltage" = "voltage" ∨ "cur_voltage" = "cur_voltage")
        ∧ (2205 : Int) ≠ 0
        ∧ (∀ g ∈ [(⟨some "power", some 30⟩ : RawField)], ¬ isVoltSyn g))
      ∧ (normalize "devA"
            ([⟨some "current", some 150⟩] ++ ⟨some "cur_voltage", some 2205⟩
              :: [⟨some "power", some 30⟩])).map ReadingDict.voltage
          = some (some (((2205 : Int) : Rat) / 10)) :=
  ⟨⟨by decide, by decide, by decide⟩,
    normalize_voltage_div_ten_of_last_nonzero "devA"
      [⟨some "current", some 150⟩] [⟨some "power", some 30⟩]
      "cur_voltage" 2205 (by decide) (by decide) (by decide)⟩

/-- Claim C2 (confirmed): when `getstatus` returns a field list in which
every voltage-synonym entry has a null or zero (falsy) value — in
particular when there is no voltage-synonym entry at all —
`collect_device` returns no reading rather than a zero-voltage reading;
and a field with a missing `code` key is treated as field-absent (the
scan leaves the reading unchanged and continues), not an error. -/
theorem collect_device_absent_of_falsy (env : String → GetStatusOutcome)
    (d : String) (fields : List RawField) (r : ReadingDict) (vv : Option Int)
    (henv : env d = .result fields)
    (hall : ∀ f ∈ fields, isVoltSyn f → f.value = none ∨ f.value = some 0) :
    collect_device env d = none ∧ applyField r ⟨none, vv⟩ = r := by
  constructor
  · unfold collect_device
    rw [henv]
    have hnone := foldl_voltage_none_of_falsy fields ⟨d, none, none, none⟩ rfl hall
    unfold normalize
    simp only [hnone]
  · simp [applyField]

/-- Claim C2, witness: a status with a zero `cur_voltage`, a non-voltage
field and a field without a `code` key yields no reading. -/
theorem collect_device_absent_of_falsy_witness :
    ((fun (_ : String) =>
          GetStatusOutcome.result
            [⟨some "current", some 5⟩, ⟨some "cur_voltage", some 0⟩, ⟨none, some 7⟩]) "dev1"
        = GetStatusOutcome.result
            [⟨some "current", some 5⟩, ⟨some "cur_voltage", some 0⟩, ⟨none, some 7⟩]
      ∧ (∀ f ∈ [(⟨some "current", some 5⟩ : RawField), ⟨some "cur_voltage", some 0⟩,
            ⟨none, some 7⟩], isVoltSyn f → f.value = none ∨ f.value = some 0))
    ∧ (collect_device
          (fun _ =>
            GetStatusOutcome.result
              [⟨some "current", some 5⟩, ⟨some "cur_voltage", some 0⟩, ⟨none, some 7⟩])
          "dev1" = none
        ∧ applyField ⟨"x", none, none, none⟩ ⟨none, some 3⟩ = ⟨"x", none, none, none⟩) :=
  ⟨⟨rfl, by decide⟩,
    collect_device_absent_of_falsy _ "dev1" _ ⟨"x", none, none, none⟩ (some 3) rfl (by decide)⟩

/-- Claim C3, counterexample: with the two voltage-synonym entries
`(voltage, 2200)` and `(cur_voltage, 2300)` the resulting voltage is
`230` — derived from the LATER entry, not `2200 / 10.0 = 220` from the
earlier one, refuting first-match-wins. -/
theorem normalize_two_syn_entries_cx :
    (normalize "d" [⟨some "voltage", some 2200⟩, ⟨some "cur_voltage", some 2300⟩]).map
        ReadingDict.voltage
      = some (some 230)
      ∧ (230 : Rat) ≠ 2200 / 10 := by
  constructor
  · norm_num [normalize, applyField, valueToScaled]
  · norm_num

/-- Claim C3, amended: synonym lookup is exact-match and case-sensitive
(a field coded `"Voltage"` matches nothing and leaves the reading
unchanged), but when several voltage-synonym fields are present the
LAST such field wins: for every list with two voltage-synonym entries
the resulting reading's voltage is derived from the later entry. -/
theorem normalize_last_match_wins (dev : String) (pre mid post : List RawField)
    (c1 c2 : String) (v1 : Option Int) (v2 : Int) (r : ReadingDict) (vv : Option Int)
    (hc1 : c1 = "voltage" ∨ c1 = "cur_voltage")
    (hc2 : c2 = "voltage" ∨ c2 = "cur_voltage") (hv2 : v2 ≠ 0)
    (hpost : ∀ g ∈ post, ¬ isVoltSyn g) :
    (normalize dev
          (pre ++ ⟨some c1, v1⟩ :: (mid ++ ⟨some c2, some v2⟩ :: post))).map
        ReadingDict.voltage
      = some (some ((v2 : Rat) / 10))
      ∧ applyField r ⟨some "Voltage", vv⟩ = r := by
  constructor
  · have h := normalize_some_of_last_nonzero dev (pre ++ ⟨some c1, v1⟩ :: mid) post
      c2 v2 hc2 hv2 hpost
    rwa [List.append_assoc, List.cons_append] at h
  · simp [applyField]

/-- Claim C3, witness: `(voltage, 2100)` followed by
`(cur_voltage, 2304)` resolves to `230.4`, from the later entry. -/
theorem normalize_last_match_wins_witness :
    (("voltage" = "voltage" ∨ "voltage" = "cur_voltage")
        ∧ ("cur_voltage" = "voltage" ∨ "cur_voltage" = "cur_voltage")
        ∧ (2304 : Int) ≠ 0
        ∧ (∀ g ∈ ([] : List RawField), ¬ isVoltSyn g))
      ∧ ((normalize "d"
              ([] ++ ⟨some "voltage", some 2100⟩
                :: ([⟨some "power", some 71⟩] ++ ⟨some "cur_voltage", some 2304⟩ :: []))).map
            ReadingDict.voltage
          = some (some (((2304 : Int) : Rat) / 10))
          ∧ applyField ⟨"z", none, none, none⟩ ⟨some "Voltage", none⟩
            = ⟨"z", none, none, none⟩) :=
  ⟨⟨by decide, by decide, by decide, by decide⟩,
    normalize_last_match_wins "d" [] [⟨some "power", some 71⟩] []
      "voltage" "cur_voltage" (some 2100) 2304 ⟨"z", none, none, none⟩ none
      (by decide) (by decide) (by decide) (by decide)⟩

/-- Claim C4 (confirmed): for every status environment and every
configured device-id list, `collect_all_devices` equals the list of
successful per-device readings in device order — every device is
visited, a failing device (raised transport error, missing result, or
unresolved voltage, all of which make `collect_device` return `None`)
contributes nothing and never aborts the cycle, and the batch is at
most as long as the device list (possibly empty). -/
theorem collect_all_devices_isolates_failures (env : String → GetStatusOutcome)
    (ids : List String) :
    collect_all_devices env ids = ids.filterMap (collect_device env)
      ∧ (collect_all_devices env ids).length ≤ ids.length := by
  have heq : collect_all_devices env ids = ids.filterMap (collect_device env) := by
    unfold collect_all_devices
    simpa using collect_foldl_eq env ids []
  exact ⟨heq, heq ▸ List.length_filterMap_le _ _⟩

/-- Claim C5 (confirmed): for a non-empty batch, `insert_batch` either
commits every row (appending exactly the batch's rows, reporting
`True`) or, when the persistence layer fails, rolls back so the store
is unchanged and reports the failure as the return value `False` — the
embedding is a total function, so no exception escapes. -/
theorem insert_batch_atomic (db : List VoltageRow) (rs : List BatchReading)
    (now : DT) (fail : Bool) (h : rs ≠ []) :
    insert_batch db rs now fail = (db ++ rs.map (rowOfReading now), some true)
      ∨ insert_batch db rs now fail = (db, some false) := by
  cases rs with
  | nil => exact absurd rfl h
  | cons a as =>
    cases fail with
    | false =>
      left
      simp [insert_batch]
    | true =>
      right
      simp [insert_batch]

/-- Claim C5, witness: a one-reading batch under a failing store leaves
the store unchanged and returns `False`. -/
theorem insert_batch_atomic_witness :
    ([(⟨"d", 230⟩ : BatchReading)] ≠ [])
      ∧ (insert_batch [] [⟨"d", 230⟩] ⟨2024, 1, 1, 0, 0, 0⟩ true
            = ([] ++ [(⟨"d", 230⟩ : BatchReading)].map (rowOfReading ⟨2024, 1, 1, 0, 0, 0⟩),
                some true)
          ∨ insert_batch [] [⟨"d", 230⟩] ⟨2024, 1, 1, 0, 0, 0⟩ true = ([], some false)) :=
  ⟨by decide, insert_batch_atomic [] [⟨"d", 230⟩] ⟨2024, 1, 1, 0, 0, 0⟩ true (by decide)⟩

/-- Claim C6 (confirmed): every row that `insert_batch` appends to the
store carries the single per-call timestamp `now` (so all rows of one
batch share one identical timestamp), and its `created_at` equals its
`timestamp` — one assignment point per batch. -/
theorem insert_batch_uniform_timestamp (db : List VoltageRow)
    (rs : List BatchReading) (now : DT) (fail : Bool) (row : VoltageRow)
    (hrow : row ∈ (insert_batch db rs now fail).1.drop db.length) :
    row.timestamp = now ∧ row.created_at = row.timestamp := by
  unfold insert_batch at hrow
  by_cases he : rs.isEmpty
  · rw [if_pos he] at hrow
    simp [List.drop_length] at hrow
  · rw [if_neg he] at hrow
    cases fail with
    | true => simp [List.drop_length] at hrow
    | false =>
      simp only [Bool.false_eq_true, if_false] at hrow
      rw [List.drop_left] at hrow
      obtain ⟨r, _, rfl⟩ := List.mem_map.mp hrow
      exact ⟨rfl, rfl⟩

/-- Claim C6, witness: the single row appended by a successful
one-reading batch has `timestamp = now` and `created_at = timestamp`. -/
theorem insert_batch_uniform_timestamp_witness :
    ((⟨"d", ⟨2024, 1, 1, 0, 0, 0⟩, 230, ⟨2024, 1, 1, 0, 0, 0⟩⟩ : VoltageRow)
        ∈ (insert_batch [] [⟨"d", 230⟩] ⟨2024, 1, 1, 0, 0, 0⟩ false).1.drop
            ([] : List VoltageRow).length)
      ∧ ((⟨"d", ⟨2024, 1, 1, 0, 0, 0⟩, 230, ⟨2024, 1, 1, 0, 0, 0⟩⟩ : VoltageRow).timestamp
            = ⟨2024, 1, 1, 0, 0, 0⟩
          ∧ (⟨"d", ⟨2024, 1, 1, 0, 0, 0⟩, 230, ⟨2024, 1, 1, 0, 0, 0⟩⟩ : VoltageRow).created_at
            = (⟨"d", ⟨2024, 1, 1, 0, 0, 0⟩, 230, ⟨2024, 1, 1, 0, 0, 0⟩⟩ : VoltageRow).timestamp) :=
  ⟨by decide,
    insert_batch_uniform_timestamp [] [⟨"d", 230⟩] ⟨2024, 1, 1, 0, 0, 0⟩ false
      ⟨"d", ⟨2024, 1, 1, 0, 0, 0⟩, 230, ⟨2024, 1, 1, 0, 0, 0⟩⟩ (by decide)⟩

/-- Claim C7, counterexample: `insert_batch` on the empty list leaves the
store unchanged but returns Python `None` (the bare `return` at
src/database.py line 91), not the success value `True` that the
function's success path returns — so the no-op does not report
success. -/
theorem insert_batch_empty_cx :
    (insert_batch [] [] ⟨2024, 1, 1, 0, 0, 0⟩ false).1 = []
      ∧ (insert_batch [] [] ⟨2024, 1, 1, 0, 0, 0⟩ false).2 ≠ some true := by
  decide

/-- Claim C7, amended: `insert_batch` called with an empty list is a
no-op — it performs no insert and leaves the store unchanged — but it
returns `None` (a falsy value) rather than reporting success with
`True`. -/
theorem insert_batch_empty_noop (db : List VoltageRow) (now : DT) (fail : Bool) :
    insert_batch db [] now fail = (db, none) := by
  simp [insert_batch]

/-- Claim C8, counterexample: with two devices whose readings fall in
the same clock hour, the hourly aggregation emits the two equal-bucket
rows in first-appearance order (`"b"` before `"a"`), because `ORDER BY
time_bucket ASC` imposes no `deviceId` tie-break — the output violates
the claimed (bucketStart, then deviceId) ordering. -/
theorem getData_no_device_tiebreak_cx :
    ¬ List.Pairwise claimOrder
        (getData dbTwoDevicesOneHour "hour" ⟨2024, 1, 1, 0, 0, 0⟩ none none none) := by
  decide

/-- Claim C8, amended: for every store, scale, window and filter
combination, the bucket sequence returned by the `get_data` query is
ordered ascending by `bucketStart` (`ORDER BY time_bucket ASC`); the
relative order of buckets sharing one `bucketStart` is not constrained
by the query (no `deviceId` tie-break). -/
theorem getData_sorted_by_bucket_start (db : List VoltageRow) (scale : String)
    (tw : DT) (mnV mxV : Option Rat) (dvI : Option String) :
    List.Pairwise bucketLe (getData db scale tw mnV mxV dvI) := by
  unfold getData
  exact List.sorted_insertionSort bucketLe _

/-- Claim C9, counterexample: a request with the non-integer hours
parameter `"abc"` makes the handler raise (Python `int('abc')` at
src/web.py line 41, outside the `try` block) — the outcome is an
unhandled exception escaping the handler, not a structured failure
result. -/
theorem get_data_handler_bad_hours_cx :
    get_data_handler true [] none ⟨2024, 1, 1, 0, 0, 0⟩ none (some "abc")
        none none none
      = Outcome.unhandled := by
  decide

/-- Claim C9, amended: an error raised during query execution inside the
handler's `try` block is reported as the structured failure result
(`success: False` with the error message); but a non-integer `hours`
parameter, or a store that is unreachable when the handler opens its
connection, raises before the `try` block and escapes as an unhandled
exception rather than a structured failure. -/
theorem get_data_handler_error_paths (db : List VoltageRow) (msg : String)
    (now : DT) (scaleP hoursP : Option String) (mnV mxV : Option Rat)
    (dvI : Option String) (s : String)
    (h1 : hoursOf hoursP ≠ none) (h2 : parseIntPy s = none) :
    get_data_handler true db (some msg) now scaleP hoursP mnV mxV dvI
        = Outcome.structuredError msg
      ∧ get_data_handler true db none now scaleP (some s) mnV mxV dvI
        = Outcome.unhandled
      ∧ get_data_handler false db none now scaleP hoursP mnV mxV dvI
        = Outcome.unhandled := by
  refine ⟨?_, ?_, ?_⟩
  · unfold get_data_handler
    cases hh : hoursOf hoursP with
    | none => exact absurd hh h1
    | some hours => simp [hh]
  · unfold get_data_handler
    simp [hoursOf, h2]
  · unfold get_data_handler
    simp

/-- Claim C9, witness: with a well-formed default request the execution
error is structured, while the bad `hours` value `"abc"` and a closed
store escape unhandled. -/
theorem get_data_handler_error_paths_witness :
    (hoursOf none ≠ none ∧ parseIntPy "abc" = none)
      ∧ (get_data_handler true [] (some "connection refused")
            ⟨2024, 1, 1, 0, 0, 0⟩ none none none none none
          = Outcome.structuredError "connection refused"
        ∧ get_data_handler true [] none ⟨2024, 1, 1, 0, 0, 0⟩ none (some "abc")
            none none none
          = Outcome.unhandled
        ∧ get_data_handler false [] none ⟨2024, 1, 1, 0, 0, 0⟩ none none
            none none none
          = Outcome.unhandled) :=
  ⟨⟨by decide, by decide⟩,
    get_data_handler_error_paths [] "connection refused" ⟨2024, 1, 1, 0, 0, 0⟩
      none none none none none "abc" (by decide) (by decide)⟩

/-- Claim C10 (confirmed): every scale value other than `"hour"`,
`"day"`, `"month"` — `"raw"` or any unrecognized string — is served by
the raw `else` branch: the result is exactly the filtered rows mapped
one-to-one to buckets (no aggregation) and ordered by timestamp; every
bucket in it has `avg = min = max =` the stored voltage and `count =
1`; no scale value is rejected (the handler is total in `scale`); and
an omitted scale parameter defaults to `"hour"`. -/
theorem getData_unrecognized_scale_raw (db : List VoltageRow) (scale : String)
    (tw : DT) (mnV mxV : Option Rat) (dvI : Option String) (b : Bucket)
    (h1 : scale ≠ "hour") (h2 : scale ≠ "day") (h3 : scale ≠ "month")
    (hb : b ∈ getData db scale tw mnV mxV dvI) :
    getData db scale tw mnV mxV dvI
        = List.insertionSort bucketLe
            ((db.filter (rowMatches tw mnV mxV dvI)).map rawBucketOf)
      ∧ b.avg_voltage = b.min_voltage ∧ b.avg_voltage = b.max_voltage
      ∧ b.reading_count = 1 ∧ scaleOf none = "hour" := by
  have heq : getData db scale tw mnV mxV dvI
      = List.insertionSort bucketLe
          ((db.filter (rowMatches tw mnV mxV dvI)).map rawBucketOf) := by
    unfold getData
    simp [h1, h2, h3]
  rw [heq, List.mem_insertionSort] at hb
  obtain ⟨r, _, rfl⟩ := List.mem_map.mp hb
  exact ⟨heq, rfl, rfl, rfl, rfl⟩

/-- Claim C10, witness: the unrecognized scale `"bogus"` serves the raw
branch on a one-row store. -/
theorem getData_unrecognized_scale_raw_witness :
    (("bogus" : String) ≠ "hour" ∧ ("bogus" : String) ≠ "day"
        ∧ ("bogus" : String) ≠ "month"
        ∧ (⟨"d", ⟨2024, 1, 1, 9, 30, 0⟩, 221, 221, 221, 1⟩ : Bucket)
          ∈ getData [⟨"d", ⟨2024, 1, 1, 9, 30, 0⟩, 221, ⟨2024, 1, 1, 9, 30, 0⟩⟩]
              "bogus" ⟨2024, 1, 1, 0, 0, 0⟩ none none none)
      ∧ (getData [⟨"d", ⟨2024, 1, 1, 9, 30, 0⟩, 221, ⟨2024, 1, 1, 9, 30, 0⟩⟩]
              "bogus" ⟨2024, 1, 1, 0, 0, 0⟩ none none none
            = List.insertionSort bucketLe
                (([(⟨"d", ⟨2024, 1, 1, 9, 30, 0⟩, 221, ⟨2024, 1, 1, 9, 30, 0⟩⟩ : VoltageRow)].filter
                    (rowMatches ⟨2024, 1, 1, 0, 0, 0⟩ none none none)).map rawBucketOf)
          ∧ (⟨"d", ⟨2024, 1, 1, 9, 30, 0⟩, 221, 221, 221, 1⟩ : Bucket).avg_voltage
            = (⟨"d", ⟨2024, 1, 1, 9, 30, 0⟩, 221, 221, 221, 1⟩ : Bucket).min_voltage
          ∧ (⟨"d", ⟨2024, 1, 1, 9, 30, 0⟩, 221, 221, 221, 1⟩ : Bucket).avg_voltage
            = (⟨"d", ⟨2024, 1, 1, 9, 30, 0⟩, 221, 221, 221, 1⟩ : Bucket).max_voltage
          ∧ (⟨"d", ⟨2024, 1, 1, 9, 30, 0⟩, 221, 221, 221, 1⟩ : Bucket).reading_count = 1
          ∧ scaleOf none = "hour") :=
  ⟨⟨by decide, by decide, by decide, by decide⟩,
    getData_unrecognized_scale_raw
      [⟨"d", ⟨2024, 1, 1, 9, 30, 0⟩, 221, ⟨2024, 1, 1, 9, 30, 0⟩⟩] "bogus"
      ⟨2024, 1, 1, 0, 0, 0⟩ none none none
      ⟨"d", ⟨2024, 1, 1, 9, 30, 0⟩, 221, 221, 221, 1⟩
      (by decide) (by decide) (by decide) (by decide)⟩

end VoltMonitor
